import Mathlib

/-!
Shallow embedding of the `uv-energy-saver` repository
(`src/flexo_uv_curing.py`, `src/utils.py`, `src/app.py`).

Python floats are modelled as rationals (ℚ); Python dictionaries keyed by
strings are modelled as functions from `String` returning `Option` (a miss
is `none`, and `dict.get(k, default)` becomes `Option.getD`).  `round(x, 1)`
is modelled as rounding `x * 10` to the nearest integer and dividing by 10
(Python breaks exact ties to even; no computation below lands on a tie).
-/

namespace UVEnergySaver

/-- One entry of the `volume_specs` tables of `FlexoUVCuring.__init__`:
a dict with keys `volume`, `bcm`, `lines`, `transfer` and (for GTT rows)
`actual_volume`. -/
structure VolumeSpec where
  volume : String
  bcm : ℚ
  lines : String
  transfer : String
  actual_volume : Option String := none
deriving DecidableEq

/-- `self.transfer_ranges` dict of `FlexoUVCuring.__init__`. -/
def transfer_ranges (rasterwals_type : String) : Option (ℚ × ℚ) :=
  if rasterwals_type = "Hexagonal (20-30% transfer)" then some (0.20, 0.30)
  else if rasterwals_type = "Hachure / Trihelical (35-40% transfer)" then some (0.35, 0.40)
  else if rasterwals_type = "ART / TIF (40-50% transfer)" then some (0.40, 0.50)
  else if rasterwals_type = "GTT UniCoat (25-30% transfer)" then some (0.25, 0.30)
  else none

/-- The `'Hexagonal (20-30% transfer)'` list of `self.volume_specs`. -/
def hexagonalSpecs : List VolumeSpec :=
  [ { volume := "7 cm³/m²", bcm := 4.5, lines := "160 L/cm", transfer := "1.8 g/m²" },
    { volume := "10 cm³/m²", bcm := 6.4, lines := "120 L/cm", transfer := "2.5 g/m²" },
    { volume := "13 cm³/m²", bcm := 8.4, lines := "100 L/cm", transfer := "3.25 g/m²" },
    { volume := "16 cm³/m²", bcm := 10.3, lines := "80 L/cm", transfer := "4.0 g/m²" },
    { volume := "20 cm³/m²", bcm := 12.9, lines := "60 L/cm", transfer := "5.0 g/m²" } ]

/-- The `'Hachure / Trihelical (35-40% transfer)'` list of `self.volume_specs`. -/
def hachureSpecs : List VolumeSpec :=
  [ { volume := "7 cm³/m²", bcm := 4.5, lines := "160 L/cm", transfer := "2.3 g/m²" },
    { volume := "10 cm³/m²", bcm := 6.4, lines := "120 L/cm", transfer := "3.3 g/m²" },
    { volume := "13 cm³/m²", bcm := 8.4, lines := "100 L/cm", transfer := "4.3 g/m²" },
    { volume := "16 cm³/m²", bcm := 10.3, lines := "80 L/cm", transfer := "5.3 g/m²" },
    { volume := "20 cm³/m²", bcm := 12.9, lines := "60 L/cm", transfer := "6.5 g/m²" } ]

/-- The `'ART / TIF (40-50% transfer)'` list of `self.volume_specs`. -/
def artTifSpecs : List VolumeSpec :=
  [ { volume := "7 cm³/m²", bcm := 4.5, lines := "160 L/cm", transfer := "2.7 g/m²" },
    { volume := "10 cm³/m²", bcm := 6.4, lines := "120 L/cm", transfer := "3.7 g/m²" },
    { volume := "13 cm³/m²", bcm := 8.4, lines := "100 L/cm", transfer := "5.0 g/m²" },
    { volume := "16 cm³/m²", bcm := 10.3, lines := "80 L/cm", transfer := "6.0 g/m²" },
    { volume := "20 cm³/m²", bcm := 12.9, lines := "60 L/cm", transfer := "7.5 g/m²" } ]

/-- The `'GTT UniCoat (25-30% transfer)'` list of `self.volume_specs`. -/
def gttUniCoatSpecs : List VolumeSpec :=
  [ { volume := "S", bcm := 4.5, lines := "GTT", transfer := "1.8 g/m²",
      actual_volume := some "7 cm³/m²" },
    { volume := "M", bcm := 6.4, lines := "GTT", transfer := "2.5 g/m²",
      actual_volume := some "10 cm³/m²" },
    { volume := "L", bcm := 8.4, lines := "GTT", transfer := "3.25 g/m²",
      actual_volume := some "13 cm³/m²" },
    { volume := "XL", bcm := 10.3, lines := "GTT", transfer := "4.0 g/m²",
      actual_volume := some "16 cm³/m²" },
    { volume := "XXL", bcm := 12.9, lines := "GTT", transfer := "5.0 g/m²",
      actual_volume := some "20 cm³/m²" } ]

/-- `self.volume_specs` dict of `FlexoUVCuring.__init__`. -/
def volume_specs (rasterwals_type : String) : Option (List VolumeSpec) :=
  if rasterwals_type = "Hexagonal (20-30% transfer)" then some hexagonalSpecs
  else if rasterwals_type = "Hachure / Trihelical (35-40% transfer)" then some hachureSpecs
  else if rasterwals_type = "ART / TIF (40-50% transfer)" then some artTifSpecs
  else if rasterwals_type = "GTT UniCoat (25-30% transfer)" then some gttUniCoatSpecs
  else none

/-- `FlexoUVCuring.get_volume_specs`: `self.volume_specs.get(rasterwals_type, [])`. -/
def get_volume_specs (rasterwals_type : String) : List VolumeSpec :=
  (volume_specs rasterwals_type).getD []

/-- `FlexoUVCuring.get_bcm_from_volume`: first spec whose `volume` equals
`selected_volume`, else `0.0`. -/
def get_bcm_from_volume (rasterwals_type selected_volume : String) : ℚ :=
  match ((volume_specs rasterwals_type).getD []).find?
      (fun spec => spec.volume == selected_volume) with
  | some spec => spec.bcm
  | none => 0.0

/-- `FlexoUVCuring.get_transfer_from_volume`: first spec whose `volume` equals
`selected_volume`, else `"0.0 g/m²"`. -/
def get_transfer_from_volume (rasterwals_type selected_volume : String) : String :=
  match ((volume_specs rasterwals_type).getD []).find?
      (fun spec => spec.volume == selected_volume) with
  | some spec => spec.transfer
  | none => "0.0 g/m²"

/-- Value of a decimal digit character. -/
def digitVal (c : Char) : ℕ := c.toNat - 48

/-- Decimal parse of a character sequence such as `['2', '.', '5']`, the
model of Python `float("2.5")` on the well-formed tokens stored in the
tables. -/
def parseDecimal (cs : List Char) : ℚ :=
  let intPart := cs.takeWhile (fun c => c ≠ '.')
  let fracPart := (cs.dropWhile (fun c => c ≠ '.')).drop 1
  let intVal : ℕ := intPart.foldl (fun a c => a * 10 + digitVal c) 0
  let fracVal : ℕ := fracPart.foldl (fun a c => a * 10 + digitVal c) 0
  (intVal : ℚ) + (fracVal : ℚ) / (10 ^ fracPart.length)

/-- Model of `float(s.split()[0])` in `calculate_transfer_factor`: parse the
leading token (up to the first space) of a transfer string. -/
def parseTransferValue (s : String) : ℚ :=
  parseDecimal (s.toList.takeWhile (fun c => c ≠ ' '))

/-- `FlexoUVCuring.calculate_transfer_factor`. -/
def calculate_transfer_factor (rasterwals_type selected_volume : String) : ℚ :=
  let transfer_range := (transfer_ranges rasterwals_type).getD (0.25, 0.30)
  let transfer_avg := (transfer_range.1 + transfer_range.2) / 2
  let specs := (volume_specs rasterwals_type).getD []
  match specs.find? (fun spec => spec.volume == selected_volume) with
  | some spec => transfer_avg * (parseTransferValue spec.transfer / 3.0)
  | none => transfer_avg

/-- The `power_factors['substraat']` table of `bereken_uv_vermogen`, with
the `.get(substraat, 1.0)` default. -/
def substrate_factor (substraat : String) : ℚ :=
  if substraat = "Gecoat papier" then 1.0
  else if substraat = "Ongecoat papier" then 1.2
  else if substraat = "Folie" then 1.3
  else if substraat = "Karton" then 1.1
  else 1.0

/-- The `power_factors['inktsoort']` table of `bereken_uv_vermogen`, with
the `.get(inktsoort, 1.0)` default. -/
def ink_factor (inktsoort : String) : ℚ :=
  if inktsoort = "UV-inkt" then 1.0
  else if inktsoort = "Watergedragen inkt" then 1.2
  else if inktsoort = "LED-UV inkt" then 0.9
  else 1.0

/-- Model of Python `round(x, 1)`. -/
def round1 (q : ℚ) : ℚ := ((round (q * 10) : ℤ) : ℚ) / 10

/-- The `explanation` dict returned by `bereken_uv_vermogen`. -/
structure CalculationResult where
  base_power : ℚ
  substrate_contribution : ℚ
  ink_contribution : ℚ
  bcm_contribution : ℚ
  transfer_factor : ℚ
  transfer_value : String
  final_power : ℚ
deriving DecidableEq

/-- `FlexoUVCuring.bereken_uv_vermogen`. -/
def bereken_uv_vermogen (substraat inktsoort : String) (bcm : ℚ)
    (rasterwals_type selected_volume : String) : CalculationResult :=
  let base_power : ℚ := 40
  let sf := substrate_factor substraat
  let inkf := ink_factor inktsoort
  let tf := calculate_transfer_factor rasterwals_type selected_volume
  let bcm_factor := bcm * 0.1
  let uv_vermogen := base_power * sf * inkf * (1 + bcm_factor)
  let uv_vermogen := uv_vermogen * (1 + tf)
  let uv_vermogen := max 20 (min uv_vermogen 100)
  let transfer_value := get_transfer_from_volume rasterwals_type selected_volume
  { base_power := base_power
    substrate_contribution := (sf - 1) * 100
    ink_contribution := (inkf - 1) * 100
    bcm_contribution := bcm_factor * 100
    transfer_factor := tf * 100
    transfer_value := transfer_value
    final_power := round1 uv_vermogen }

/-- `utils.validate_bcm`. -/
def validate_bcm (bcm : ℚ) : Bool :=
  decide (0 < bcm ∧ bcm ≤ 20)

/-- The `new_setting` dict built in `app.main` before `save_settings`. -/
structure SavedSetting where
  substraat : String
  inktsoort : String
  rasterwals_type : String
  volume : String
  bcm : ℚ
  vermogen : ℚ
  transfer : String
deriving DecidableEq

/-- JSON values, the model of what `json.dump` writes to
`saved_settings.json` and `json.load` reads back. -/
inductive Json where
  | str : String → Json
  | num : ℚ → Json
  | arr : List Json → Json
  | obj : List (String × Json) → Json

/-- The JSON object `json.dump` produces for one saved-setting dict. -/
def encodeSetting (s : SavedSetting) : Json :=
  .obj [("substraat", .str s.substraat), ("inktsoort", .str s.inktsoort),
        ("rasterwals_type", .str s.rasterwals_type), ("volume", .str s.volume),
        ("bcm", .num s.bcm), ("vermogen", .num s.vermogen),
        ("transfer", .str s.transfer)]

/-- Read a JSON string value. -/
def jsonStr? : Json → Option String
  | .str s => some s
  | _ => none

/-- Read a JSON number value. -/
def jsonNum? : Json → Option ℚ
  | .num q => some q
  | _ => none

/-- Recover a saved-setting record from the JSON object `json.load`
returns for it. -/
def decodeSetting (j : Json) : Option SavedSetting :=
  match j with
  | .obj fields => do
      let substraat ← (fields.lookup "substraat").bind jsonStr?
      let inktsoort ← (fields.lookup "inktsoort").bind jsonStr?
      let rasterwals_type ← (fields.lookup "rasterwals_type").bind jsonStr?
      let volume ← (fields.lookup "volume").bind jsonStr?
      let bcm ← (fields.lookup "bcm").bind jsonNum?
      let vermogen ← (fields.lookup "vermogen").bind jsonNum?
      let transfer ← (fields.lookup "transfer").bind jsonStr?
      some ⟨substraat, inktsoort, rasterwals_type, volume, bcm, vermogen, transfer⟩
  | _ => none

/-- `utils.save_settings`: `json.dump(settings, f)` rewrites the whole file
with the JSON array of the settings list. -/
def save_settings (settings : List SavedSetting) : Json :=
  .arr (settings.map encodeSetting)

/-- Recover every saved-setting record of a JSON array element list. -/
def decodeSettingList : List Json → Option (List SavedSetting)
  | [] => some []
  | j :: rest => do
      let s ← decodeSetting j
      let t ← decodeSettingList rest
      some (s :: t)

/-- `utils.load_saved_settings`: the file content is `none` when the file is
missing or unreadable (the `except` path returns `[]`); otherwise
`json.load` yields the stored JSON value, and the settings records are
recovered from it (content of an unexpected shape also degrades to `[]`). -/
def load_saved_settings : Option Json → List SavedSetting
  | none => []
  | some (.arr items) =>
      match decodeSettingList items with
      | some l => l
      | none => []
  | some _ => []

/-! ### Helper lemmas -/

/-- `round1` is monotone. -/
theorem round1_mono {a b : ℚ} (h : a ≤ b) : round1 a ≤ round1 b := by
  unfold round1
  have hr : round (a * 10) ≤ round (b * 10) := by
    rw [round_eq, round_eq]
    exact Int.floor_le_floor (by linarith)
  have hc : ((round (a * 10) : ℤ) : ℚ) ≤ ((round (b * 10) : ℤ) : ℚ) := by
    exact_mod_cast hr
  linarith

/-- `round1` fixes `20`. -/
theorem round1_twenty : round1 (20 : ℚ) = 20 := by
  unfold round1
  have h : (20 : ℚ) * 10 = ((200 : ℕ) : ℚ) := by norm_num
  rw [h, round_natCast]
  norm_num

/-- `round1` fixes `100`. -/
theorem round1_hundred : round1 (100 : ℚ) = 100 := by
  unfold round1
  have h : (100 : ℚ) * 10 = ((1000 : ℕ) : ℚ) := by norm_num
  rw [h, round_natCast]
  norm_num

/-- `round1` fixes `36`. -/
theorem round1_thirtysix : round1 (36 : ℚ) = 36 := by
  unfold round1
  have h : (36 : ℚ) * 10 = ((360 : ℕ) : ℚ) := by norm_num
  rw [h, round_natCast]
  norm_num

/-- Every substrate factor of the table (default included) is at least 1. -/
theorem substrate_factor_ge_one (s : String) : 1 ≤ substrate_factor s := by
  unfold substrate_factor
  split_ifs <;> norm_num

/-- Every ink factor of the table (default included) is at least 0.9. -/
theorem ink_factor_ge (i : String) : (0.9 : ℚ) ≤ ink_factor i := by
  unfold ink_factor
  split_ifs <;> norm_num

/-- The midpoint of every transfer range (default included) is positive. -/
theorem transfer_avg_pos (rt : String) :
    0 < (((transfer_ranges rt).getD (0.25, 0.30)).1 +
         ((transfer_ranges rt).getD (0.25, 0.30)).2) / 2 := by
  unfold transfer_ranges
  split_ifs <;> norm_num

/-- Every transfer string stored in the tables parses to a positive value. -/
theorem specs_transfer_pos (rt : String) :
    ∀ spec ∈ (volume_specs rt).getD [], 0 < parseTransferValue spec.transfer := by
  unfold volume_specs
  split_ifs <;>
    (simp [hexagonalSpecs, hachureSpecs, artTifSpecs, gttUniCoatSpecs,
      parseTransferValue, parseDecimal, digitVal]) <;> norm_num

/-- `calculate_transfer_factor` is strictly positive on every input. -/
theorem calculate_transfer_factor_pos (rt vol : String) :
    0 < calculate_transfer_factor rt vol := by
  cases hf : ((volume_specs rt).getD []).find? (fun spec => spec.volume == vol) with
  | none =>
      have := transfer_avg_pos rt
      simp only [calculate_transfer_factor, hf]
      exact this
  | some spec =>
      have hmem := List.mem_of_find?_eq_some hf
      have hpos := specs_transfer_pos rt spec hmem
      have havg := transfer_avg_pos rt
      simp only [calculate_transfer_factor, hf]
      positivity

/-- A saved-setting record survives encoding to JSON and decoding back. -/
theorem decode_encode (s : SavedSetting) : decodeSetting (encodeSetting s) = some s := by
  cases s
  rfl

/-- Decoding the encodings of a settings list recovers the list. -/
theorem decodeList_encode (l : List SavedSetting) :
    decodeSettingList (l.map encodeSetting) = some l := by
  induction l with
  | nil => rfl
  | cons a t ih => simp [decodeSettingList, decode_encode, ih]

/-! ### Claim theorems -/

/-- C1: for every substrate, ink type, roller type, volume label and bcm,
`bereken_uv_vermogen` returns exactly the result of the spec's formula:
`power = 40 * substrateFactor * inkFactor * (1 + bcm*0.1)`, then
`power = power * (1 + transferFactor)`, then clamped to `[20,100]`, with
the stated result fields, substrate factors from the table
`Gecoat papier 1.0, Ongecoat papier 1.2, Folie 1.3, Karton 1.1`
(default 1.0) and ink factors from `UV-inkt 1.0, Watergedragen inkt 1.2,
LED-UV inkt 0.9` (default 1.0). -/
theorem uv_power_formula_spec (s i : String) (bcm : ℚ) (rt vol : String) :
    bereken_uv_vermogen s i bcm rt vol =
      { base_power := 40
        substrate_contribution := (substrate_factor s - 1) * 100
        ink_contribution := (ink_factor i - 1) * 100
        bcm_contribution := bcm * 0.1 * 100
        transfer_factor := calculate_transfer_factor rt vol * 100
        transfer_value := get_transfer_from_volume rt vol
        final_power := round1 (max 20 (min
          (40 * substrate_factor s * ink_factor i * (1 + bcm * 0.1) *
            (1 + calculate_transfer_factor rt vol)) 100)) }
    ∧ substrate_factor "Gecoat papier" = 1.0 ∧ substrate_factor "Ongecoat papier" = 1.2
    ∧ substrate_factor "Folie" = 1.3 ∧ substrate_factor "Karton" = 1.1
    ∧ (s ∉ (["Gecoat papier", "Ongecoat papier", "Folie", "Karton"] : List String) →
        substrate_factor s = 1.0)
    ∧ ink_factor "UV-inkt" = 1.0 ∧ ink_factor "Watergedragen inkt" = 1.2
    ∧ ink_factor "LED-UV inkt" = 0.9
    ∧ (i ∉ (["UV-inkt", "Watergedragen inkt", "LED-UV inkt"] : List String) →
        ink_factor i = 1.0) := by
  refine ⟨rfl, rfl, rfl, rfl, rfl, ?_, rfl, rfl, rfl, ?_⟩
  · intro h
    simp at h
    simp [substrate_factor, h]
  · intro h
    simp at h
    simp [ink_factor, h]

/-- Witness for C1 at an unrecognized substrate and ink type. -/
theorem uv_power_formula_spec_witness :
    substrate_factor "Textiel" = 1.0 ∧ ink_factor "Latex inkt" = 1.0 := by
  have h := uv_power_formula_spec "Textiel" "Latex inkt" 1 "R" "V"
  exact ⟨h.2.2.2.2.2.1 (by decide), h.2.2.2.2.2.2.2.2.2 (by decide)⟩

/-- C2: for every valid input combination (any strings, `0 < bcm ≤ 20`),
the `final_power` field of `bereken_uv_vermogen` lies in `[20, 100]`. -/
theorem final_power_in_range (s i rt vol : String) (bcm : ℚ)
    (h1 : 0 < bcm) (h2 : bcm ≤ 20) :
    20 ≤ (bereken_uv_vermogen s i bcm rt vol).final_power ∧
    (bereken_uv_vermogen s i bcm rt vol).final_power ≤ 100 := by
  have hfp : (bereken_uv_vermogen s i bcm rt vol).final_power =
      round1 (max 20 (min (40 * substrate_factor s * ink_factor i * (1 + bcm * 0.1) *
        (1 + calculate_transfer_factor rt vol)) 100)) := rfl
  rw [hfp]
  constructor
  · calc (20 : ℚ) = round1 20 := round1_twenty.symm
      _ ≤ _ := round1_mono (le_max_left _ _)
  · calc round1 (max 20 (min (40 * substrate_factor s * ink_factor i * (1 + bcm * 0.1) *
          (1 + calculate_transfer_factor rt vol)) 100))
        ≤ round1 100 := round1_mono (max_le (by norm_num) (min_le_right _ _))
      _ = 100 := round1_hundred

/-- Witness for C2 at a concrete valid input. -/
theorem final_power_in_range_witness :
    (0 : ℚ) < 6.4 ∧ (6.4 : ℚ) ≤ 20 ∧
    20 ≤ (bereken_uv_vermogen "Karton" "LED-UV inkt" 6.4 "Hexagonal (20-30% transfer)"
      "7 cm³/m²").final_power ∧
    (bereken_uv_vermogen "Karton" "LED-UV inkt" 6.4 "Hexagonal (20-30% transfer)"
      "7 cm³/m²").final_power ≤ 100 := by
  have h := final_power_in_range "Karton" "LED-UV inkt" "Hexagonal (20-30% transfer)"
    "7 cm³/m²" 6.4 (by norm_num) (by norm_num)
  exact ⟨by norm_num, by norm_num, h.1, h.2⟩

/-- C3: `calculate_transfer_factor` returns `transferAvg * (transferValue / 3.0)`
when a spec with the selected volume label exists for the roller type
(`transferValue` being the parsed leading numeric token of its transfer
string), and returns `transferAvg` unscaled otherwise, where `transferAvg`
is the midpoint of the roller type's transfer range, defaulting to the
range `(0.25, 0.30)` for an unrecognized roller type. -/
theorem transfer_factor_spec (rt vol : String) :
    (∃ spec ∈ (volume_specs rt).getD [], spec.volume = vol ∧
        calculate_transfer_factor rt vol =
          ((((transfer_ranges rt).getD (0.25, 0.30)).1 +
            ((transfer_ranges rt).getD (0.25, 0.30)).2) / 2) *
            (parseTransferValue spec.transfer / 3.0))
    ∨ ((∀ spec ∈ (volume_specs rt).getD [], spec.volume ≠ vol) ∧
        calculate_transfer_factor rt vol =
          (((transfer_ranges rt).getD (0.25, 0.30)).1 +
           ((transfer_ranges rt).getD (0.25, 0.30)).2) / 2) := by
  cases hf : ((volume_specs rt).getD []).find? (fun spec => spec.volume == vol) with
  | none =>
      right
      constructor
      · intro spec hs
        have := List.find?_eq_none.mp hf spec hs
        simpa using this
      · simp only [calculate_transfer_factor, hf]
  | some spec =>
      left
      refine ⟨spec, List.mem_of_find?_eq_some hf, ?_, ?_⟩
      · have := List.find?_some hf
        simpa using this
      · simp only [calculate_transfer_factor, hf]

/-- Witness for C3 at an unrecognized roller type, where the factor is the
default range's unscaled midpoint. -/
theorem transfer_factor_spec_witness :
    calculate_transfer_factor "Keramische wals" "Q" =
      (((transfer_ranges "Keramische wals").getD (0.25, 0.30)).1 +
       ((transfer_ranges "Keramische wals").getD (0.25, 0.30)).2) / 2 := by
  rcases transfer_factor_spec "Keramische wals" "Q" with ⟨spec, hmem, _, _⟩ | ⟨_, heq⟩
  · have hnil : (volume_specs "Keramische wals").getD [] = ([] : List VolumeSpec) := rfl
    rw [hnil] at hmem
    exact absurd hmem (List.not_mem_nil spec)
  · exact heq

/-- C4: on roller type `Hexagonal (20-30% transfer)` and volume label
`10 cm³/m²`, the bcm lookup gives 6.4, the transfer lookup gives
`2.5 g/m²`, the transfer factor is `0.25 * (2.5 / 3.0)`, and with
substrate `Gecoat papier` and ink `UV-inkt` the final power is 79.3. -/
theorem hexagonal_ten_example :
    get_bcm_from_volume "Hexagonal (20-30% transfer)" "10 cm³/m²" = 6.4
    ∧ get_transfer_from_volume "Hexagonal (20-30% transfer)" "10 cm³/m²" = "2.5 g/m²"
    ∧ calculate_transfer_factor "Hexagonal (20-30% transfer)" "10 cm³/m²" = 0.25 * (2.5 / 3.0)
    ∧ (bereken_uv_vermogen "Gecoat papier" "UV-inkt" 6.4 "Hexagonal (20-30% transfer)"
        "10 cm³/m²").final_power = 79.3 := by
  refine ⟨rfl, rfl, ?_, ?_⟩
  · simp [calculate_transfer_factor, transfer_ranges, volume_specs, hexagonalSpecs, List.find?,
      parseTransferValue, parseDecimal, digitVal]
    norm_num
  · simp [bereken_uv_vermogen, substrate_factor, ink_factor, calculate_transfer_factor,
      get_transfer_from_volume, transfer_ranges, volume_specs, hexagonalSpecs, List.find?,
      parseTransferValue, parseDecimal, digitVal, round1]
    norm_num [round_eq]

/-- C5: lookups degrade to defaults and never raise: an unrecognized roller
type yields the empty spec list, and a roller-type/volume pair with no
matching spec yields bcm `0.0` and transfer string `0.0 g/m²`. -/
theorem lookup_miss_defaults (rt vol : String) :
    (volume_specs rt = none → get_volume_specs rt = [])
    ∧ ((∀ spec ∈ get_volume_specs rt, spec.volume ≠ vol) →
        get_bcm_from_volume rt vol = 0.0 ∧
        get_transfer_from_volume rt vol = "0.0 g/m²") := by
  constructor
  · intro h
    simp [get_volume_specs, h]
  · intro h
    unfold get_volume_specs at h
    have hf : ((volume_specs rt).getD []).find? (fun spec => spec.volume == vol) = none := by
      rw [List.find?_eq_none]
      intro spec hs
      simpa using h spec hs
    constructor
    · simp only [get_bcm_from_volume, hf]
    · simp only [get_transfer_from_volume, hf]

/-- Witness for C5 at a concrete unrecognized roller type. -/
theorem lookup_miss_defaults_witness :
    get_volume_specs "Keramisch" = [] ∧
    get_bcm_from_volume "Keramisch" "5 cm³/m²" = 0.0 ∧
    get_transfer_from_volume "Keramisch" "5 cm³/m²" = "0.0 g/m²" := by
  have h := lookup_miss_defaults "Keramisch" "5 cm³/m²"
  have h1 := h.1 rfl
  have h2 := h.2 (by simp [get_volume_specs, volume_specs])
  exact ⟨h1, h2.1, h2.2⟩

/-- C6: `validate_bcm` accepts exactly the rationals with `0 < bcm ≤ 20`;
in particular 0 and 20.01 are rejected while 20 and 0.01 are accepted. -/
theorem validate_bcm_spec (bcm : ℚ) :
    (validate_bcm bcm = true ↔ 0 < bcm ∧ bcm ≤ 20)
    ∧ validate_bcm 0 = false ∧ validate_bcm 20.01 = false
    ∧ validate_bcm 20 = true ∧ validate_bcm 0.01 = true := by
  refine ⟨by simp [validate_bcm], ?_, ?_, ?_, ?_⟩ <;> simp [validate_bcm] <;> norm_num

/-- Witness for C6 at a concrete accepted value. -/
theorem validate_bcm_spec_witness :
    (validate_bcm 5 = true ↔ (0 : ℚ) < 5 ∧ (5 : ℚ) ≤ 20) ∧ validate_bcm 0 = false := by
  have h := validate_bcm_spec 5
  exact ⟨h.1, h.2.1⟩

/-- C7: appending a record to the saved settings, saving with
`save_settings` and reloading with `load_saved_settings` (no intervening
I/O failure) yields a list equal to the saved one, whose last element is
the appended record exactly. -/
theorem save_then_load_roundtrip (prev : List SavedSetting) (s : SavedSetting) :
    load_saved_settings (some (save_settings (prev ++ [s]))) = prev ++ [s]
    ∧ (load_saved_settings (some (save_settings (prev ++ [s])))).getLast? = some s := by
  have h : load_saved_settings (some (save_settings (prev ++ [s]))) = prev ++ [s] := by
    simp only [save_settings, load_saved_settings, decodeList_encode]
  exact ⟨h, by rw [h]; exact List.getLast?_concat _⟩

/-- C8: in every per-roller-type spec list, the volume labels are pairwise
distinct and the bcm values strictly increase in insertion order. -/
theorem volume_specs_invariant (rt : String) (l : List VolumeSpec)
    (h : volume_specs rt = some l) :
    (l.map VolumeSpec.volume).Nodup ∧ List.Chain' (· < ·) (l.map VolumeSpec.bcm) := by
  unfold volume_specs at h
  split_ifs at h <;> simp only [Option.some.injEq] at h
  any_goals subst h
  · exact ⟨by decide, by simp [hexagonalSpecs, List.chain'_cons]; norm_num⟩
  · exact ⟨by decide, by simp [hachureSpecs, List.chain'_cons]; norm_num⟩
  · exact ⟨by decide, by simp [artTifSpecs, List.chain'_cons]; norm_num⟩
  · exact ⟨by decide, by simp [gttUniCoatSpecs, List.chain'_cons]; norm_num⟩

/-- Witness for C8 at the Hexagonal roller type. -/
theorem volume_specs_invariant_witness :
    (hexagonalSpecs.map VolumeSpec.volume).Nodup ∧
    List.Chain' (· < ·) (hexagonalSpecs.map VolumeSpec.bcm) :=
  volume_specs_invariant "Hexagonal (20-30% transfer)" hexagonalSpecs rfl

/-- C9: `bereken_uv_vermogen` is deterministic: two invocations with
identical arguments return identical result records in every field. -/
theorem bereken_deterministic (s₁ i₁ r₁ v₁ s₂ i₂ r₂ v₂ : String) (b₁ b₂ : ℚ)
    (hs : s₁ = s₂) (hi : i₁ = i₂) (hb : b₁ = b₂) (hr : r₁ = r₂) (hv : v₁ = v₂) :
    bereken_uv_vermogen s₁ i₁ b₁ r₁ v₁ = bereken_uv_vermogen s₂ i₂ b₂ r₂ v₂ := by
  rw [hs, hi, hb, hr, hv]

/-- Witness for C9 at a concrete input. -/
theorem bereken_deterministic_witness :
    bereken_uv_vermogen "Folie" "UV-inkt" 5 "GTT UniCoat (25-30% transfer)" "M" =
    bereken_uv_vermogen "Folie" "UV-inkt" 5 "GTT UniCoat (25-30% transfer)" "M" :=
  bereken_deterministic _ _ _ _ _ _ _ _ _ _ rfl rfl rfl rfl rfl

/-- C10: for every input with `bcm > 0`, the substrate factor is at least 1,
the ink factor at least 0.9 and the transfer factor strictly positive, so
the power computed before clamping exceeds 36, the lower clamp bound 20
never takes effect, and `final_power` is at least 36. -/
theorem power_above_lower_clamp (s i rt vol : String) (bcm : ℚ) (h : 0 < bcm) :
    1 ≤ substrate_factor s ∧ (0.9 : ℚ) ≤ ink_factor i
    ∧ 0 < calculate_transfer_factor rt vol
    ∧ 36 < 40 * substrate_factor s * ink_factor i * (1 + bcm * 0.1) *
        (1 + calculate_transfer_factor rt vol)
    ∧ max 20 (min (40 * substrate_factor s * ink_factor i * (1 + bcm * 0.1) *
          (1 + calculate_transfer_factor rt vol)) 100) =
        min (40 * substrate_factor s * ink_factor i * (1 + bcm * 0.1) *
          (1 + calculate_transfer_factor rt vol)) 100
    ∧ 36 ≤ (bereken_uv_vermogen s i bcm rt vol).final_power := by
  have hs := substrate_factor_ge_one s
  have hi := ink_factor_ge i
  have ht := calculate_transfer_factor_pos rt vol
  have hbase : (36 : ℚ) ≤ 40 * substrate_factor s * ink_factor i := by nlinarith
  have hP : (0 : ℚ) < 40 * substrate_factor s * ink_factor i := by nlinarith
  have hb1 : (1 : ℚ) < 1 + bcm * 0.1 := by nlinarith
  have ht1 : (1 : ℚ) < 1 + calculate_transfer_factor rt vol := by linarith
  have hA : 36 < 40 * substrate_factor s * ink_factor i * (1 + bcm * 0.1) := by
    nlinarith [mul_lt_mul_of_pos_left hb1 hP]
  have h36 : 36 < 40 * substrate_factor s * ink_factor i * (1 + bcm * 0.1) *
      (1 + calculate_transfer_factor rt vol) := by
    nlinarith [mul_lt_mul_of_pos_left ht1
      (lt_trans (by norm_num : (0 : ℚ) < 36) hA)]
  have hclamp : max 20 (min (40 * substrate_factor s * ink_factor i * (1 + bcm * 0.1) *
        (1 + calculate_transfer_factor rt vol)) 100) =
      min (40 * substrate_factor s * ink_factor i * (1 + bcm * 0.1) *
        (1 + calculate_transfer_factor rt vol)) 100 :=
    max_eq_right (le_min (by linarith) (by norm_num))
  refine ⟨hs, hi, ht, h36, hclamp, ?_⟩
  have hfp : (bereken_uv_vermogen s i bcm rt vol).final_power =
      round1 (max 20 (min (40 * substrate_factor s * ink_factor i * (1 + bcm * 0.1) *
        (1 + calculate_transfer_factor rt vol)) 100)) := rfl
  rw [hfp, hclamp]
  calc (36 : ℚ) = round1 36 := round1_thirtysix.symm
    _ ≤ _ := round1_mono (le_min (by linarith) (by norm_num))

/-- Witness for C10 at a concrete input with positive bcm. -/
theorem power_above_lower_clamp_witness :
    (0 : ℚ) < 4.5 ∧
    36 ≤ (bereken_uv_vermogen "Gecoat papier" "LED-UV inkt" 4.5
      "ART / TIF (40-50% transfer)" "7 cm³/m²").final_power := by
  have h := power_above_lower_clamp "Gecoat papier" "LED-UV inkt"
    "ART / TIF (40-50% transfer)" "7 cm³/m²" 4.5 (by norm_num)
  exact ⟨by norm_num, h.2.2.2.2.2⟩

end UVEnergySaver
